import Mathlib

/-!
Verification development for the InChI API binding header
(src/3rd/inchi_api.h of cx-luo/go-chem).

The source is a declarative C header: type aliases, numeric constants,
fixed-layout structures and function prototypes for the external InChI
native library.  We embed it at two levels:

1. A declaration-level embedding: the structure declarations and the
   prototype of GetINCHIKeyFromINCHI are transcribed, field by field and
   parameter by parameter, as Lean data (`CType`, field lists, `CFunDecl`),
   so that claims about field order, array lengths, constness and
   "no other fields" are decidable facts about that data.

2. A semantic embedding: Lean structures mirroring the C records
   (fixed-size arrays become length-indexed lists, pointer+count pairs
   become lists), used for the claims about meaningful data and for the
   round-trip scenario.
-/

/- ### Basic C types of the header (semantic embedding)

`AT_NUM` is `signed short`, `S_CHAR` is `signed char`; the claims never
exercise overflow, so both are embedded as `Int`. -/

abbrev AT_NUM : Type := Int

abbrev S_CHAR : Type := Int

/-- A C array of statically known length `n`, as a length-indexed list. -/
def CArr (α : Type) (n : Nat) : Type := { l : List α // l.length = n }

/- ### Constants of the header -/

def ATOM_EL_LEN : Nat := 6

def NUM_H_ISOTOPES : Nat := 3

def ISOTOPIC_SHIFT_FLAG : Int := 10000

def ISOTOPIC_SHIFT_MAX : Int := 100

def INCHI_BOND_TYPE_NONE : Int := 0

def INCHI_BOND_TYPE_SINGLE : Int := 1

def INCHI_BOND_TYPE_DOUBLE : Int := 2

def INCHI_BOND_TYPE_TRIPLE : Int := 3

def INCHI_BOND_TYPE_ALTERN : Int := 4

def INCHI_BOND_STEREO_NONE : Int := 0

def INCHI_BOND_STEREO_SINGLE_1UP : Int := 1

def INCHI_BOND_STEREO_SINGLE_1DOWN : Int := 6

def INCHI_BOND_STEREO_SINGLE_2UP : Int := 4

def INCHI_BOND_STEREO_SINGLE_2DOWN : Int := 5

def INCHI_BOND_STEREO_SINGLE_1EITHER : Int := 2

def INCHI_BOND_STEREO_SINGLE_2EITHER : Int := 3

def INCHI_BOND_STEREO_DOUBLE_EITHER : Int := 7

def INCHI_PARITY_NONE : Int := 0

def INCHI_PARITY_ODD : Int := 1

def INCHI_PARITY_EVEN : Int := 2

def INCHI_PARITY_UNKNOWN : Int := 3

def INCHI_PARITY_UNDEFINED : Int := 4

def INCHI_StereoType_None : Int := 0

def INCHI_StereoType_DoubleBond : Int := 1

def INCHI_StereoType_Tetrahedral : Int := 2

def INCHI_StereoType_Allene : Int := 3

def inchi_Ret_OKAY : Int := 0

def inchi_Ret_WARNING : Int := 1

def inchi_Ret_ERROR : Int := 2

def inchi_Ret_FATAL : Int := 3

def inchi_Ret_UNKNOWN : Int := 4

def inchi_Ret_BUSY : Int := 5

def inchi_Ret_EOF : Int := 6

def INCHIKEY_OK : Int := 0

def INCHIKEY_UNKNOWN_ERROR : Int := 1

def INCHIKEY_EMPTY_INPUT : Int := 2

def INCHIKEY_INVALID_INCHI_PREFIX : Int := 3

def INCHIKEY_NOT_ENOUGH_MEMORY : Int := 4

def INCHIKEY_INVALID_INCHI : Int := 5

def INCHIKEY_INVALID_STD_INCHI : Int := 6

/- ### Declaration-level embedding of the header's structures -/

/-- Names of the structures declared in the header. -/
inductive CStructName where
  | inchiAtom
  | inchiStereo0D
  | inchiInput
  | inchiOutput
  | inchiInputINCHI
  | inchiOutputStruct
deriving DecidableEq, Repr

/-- C types occurring in the header's declarations.  `constQ` is the
`const` qualifier; `array t n` is `t[n]`. -/
inductive CType where
  | char
  | double
  | int
  | uLong
  | at_num
  | s_char
  | ptr (t : CType)
  | constQ (t : CType)
  | array (t : CType) (n : Nat)
  | structRef (s : CStructName)
deriving DecidableEq, Repr

/-- Field names occurring in the header's structure declarations. -/
inductive CField where
  | elname
  | x
  | y
  | z
  | neighbor
  | bond_type
  | bond_stereo
  | num_bonds
  | num_iso_H
  | isotopic_mass
  | radical
  | charge
  | central_atom
  | type
  | parity
  | atom
  | stereo0D
  | szOptions
  | num_atoms
  | num_stereo0D
  | szInChI
  | szAuxInfo
  | szMessage
  | szLog
  | WarningFlags
deriving DecidableEq, Repr, BEq

/-- The fields of `inchi_Atom`, in declaration order. -/
def inchi_Atom_fields : List (CField × CType) :=
  [ (.elname, .array .char ATOM_EL_LEN),
    (.x, .double),
    (.y, .double),
    (.z, .double),
    (.neighbor, .array .at_num 20),
    (.bond_type, .array .at_num 20),
    (.bond_stereo, .array .s_char 20),
    (.num_bonds, .at_num),
    (.num_iso_H, .array .s_char (NUM_H_ISOTOPES + 1)),
    (.isotopic_mass, .s_char),
    (.radical, .s_char),
    (.charge, .s_char) ]

/-- The fields of `inchi_Stereo0D`, in declaration order. -/
def inchi_Stereo0D_fields : List (CField × CType) :=
  [ (.neighbor, .array .at_num 4),
    (.central_atom, .at_num),
    (.type, .s_char),
    (.parity, .s_char) ]

/-- The fields of `inchi_Input`, in declaration order. -/
def inchi_Input_fields : List (CField × CType) :=
  [ (.atom, .ptr (.structRef .inchiAtom)),
    (.stereo0D, .ptr (.structRef .inchiStereo0D)),
    (.szOptions, .ptr .char),
    (.num_atoms, .at_num),
    (.num_stereo0D, .at_num) ]

/-- The fields of `inchi_Output`, in declaration order. -/
def inchi_Output_fields : List (CField × CType) :=
  [ (.szInChI, .ptr .char),
    (.szAuxInfo, .ptr .char),
    (.szMessage, .ptr .char),
    (.szLog, .ptr .char) ]

/-- The fields of `inchi_InputINCHI`, in declaration order. -/
def inchi_InputINCHI_fields : List (CField × CType) :=
  [ (.szInChI, .ptr .char),
    (.szOptions, .ptr .char) ]

/-- The fields of `inchi_OutputStruct`, in declaration order. -/
def inchi_OutputStruct_fields : List (CField × CType) :=
  [ (.atom, .ptr (.structRef .inchiAtom)),
    (.stereo0D, .ptr (.structRef .inchiStereo0D)),
    (.num_atoms, .at_num),
    (.num_stereo0D, .at_num),
    (.szMessage, .ptr .char),
    (.szLog, .ptr .char),
    (.WarningFlags, .array (.array .uLong 2) 2) ]

/-- Type of a named field in a structure's field list. -/
def fieldType (fs : List (CField × CType)) (f : CField) : Option CType :=
  List.lookup f fs

/- ### Declaration-level embedding of GetINCHIKeyFromINCHI -/

/-- Parameter names of the header's function prototypes. -/
inductive CParamName where
  | szINCHISource
  | xtra1
  | xtra2
  | szINCHIKey
  | szXtra1
  | szXtra2
  | inp
  | out
deriving DecidableEq, Repr

/-- A formal parameter of a C prototype. -/
structure CParam where
  pname : CParamName
  ptype : CType
deriving DecidableEq, Repr

/-- A C function prototype: return type and parameter list. -/
structure CFunDecl where
  ret : CType
  params : List CParam
deriving DecidableEq, Repr

/-- The prototype of `GetINCHIKeyFromINCHI`, as declared in the header:
`int GetINCHIKeyFromINCHI(const char* szINCHISource, const int xtra1,
const int xtra2, char* szINCHIKey, char* szXtra1, char* szXtra2)`. -/
def GetINCHIKeyFromINCHI_decl : CFunDecl :=
  { ret := .int,
    params :=
      [ ⟨.szINCHISource, .ptr (.constQ .char)⟩,
        ⟨.xtra1, .constQ .int⟩,
        ⟨.xtra2, .constQ .int⟩,
        ⟨.szINCHIKey, .ptr .char⟩,
        ⟨.szXtra1, .ptr .char⟩,
        ⟨.szXtra2, .ptr .char⟩ ] }

/-- A parameter is read-only when its value, or the data it points to,
is `const`-qualified. -/
def readOnlyParam : CType → Bool
  | .constQ _ => true
  | .ptr (.constQ _) => true
  | _ => false

/-- A parameter is a caller-supplied writable character buffer when it is
a non-const `char*`. -/
def writableCharBuf : CType → Bool
  | .ptr .char => true
  | _ => false

/- ### Semantic embedding of the structures

Fixed-size C arrays become length-indexed lists; `pointer to array` plus
`count` pairs become Lean lists; C strings become `String`. -/

/-- Semantic form of `inchi_Atom`. -/
structure inchi_Atom where
  elname : CArr Char ATOM_EL_LEN
  x : Float
  y : Float
  z : Float
  neighbor : CArr AT_NUM 20
  bond_type : CArr AT_NUM 20
  bond_stereo : CArr S_CHAR 20
  num_bonds : AT_NUM
  num_iso_H : CArr S_CHAR (NUM_H_ISOTOPES + 1)
  isotopic_mass : S_CHAR
  radical : S_CHAR
  charge : S_CHAR

/-- Semantic form of `inchi_Stereo0D`. -/
structure inchi_Stereo0D where
  neighbor : CArr AT_NUM 4
  central_atom : AT_NUM
  type : S_CHAR
  parity : S_CHAR

/-- Semantic form of `inchi_Input`. -/
structure inchi_Input where
  atom : List inchi_Atom
  stereo0D : List inchi_Stereo0D
  szOptions : String
  num_atoms : AT_NUM
  num_stereo0D : AT_NUM

/-- Semantic form of `inchi_Output`. -/
structure inchi_Output where
  szInChI : String
  szAuxInfo : String
  szMessage : String
  szLog : String

/-- Semantic form of `inchi_InputINCHI`. -/
structure inchi_InputINCHI where
  szInChI : String
  szOptions : String

/-- Semantic form of `inchi_OutputStruct`. -/
structure inchi_OutputStruct where
  atom : List inchi_Atom
  stereo0D : List inchi_Stereo0D
  num_atoms : AT_NUM
  num_stereo0D : AT_NUM
  szMessage : String
  szLog : String
  WarningFlags : CArr (CArr Nat 2) 2

/-- The bond data of an atom: the triples (neighbor, bond type, bond
stereo) read off the three parallel arrays, restricted to the first
`num_bonds` positions, which are the meaningful ones. -/
def atomBonds (a : inchi_Atom) : List (AT_NUM × AT_NUM × S_CHAR) :=
  ((a.neighbor.val.zip (a.bond_type.val.zip a.bond_stereo.val)).take a.num_bonds.toNat)

/- ### The round-trip model

The header only declares the prototypes of `GetINCHI` and
`GetStructFromINCHI`; their implementation is the InChI native library,
which is not under src/.  The functions below are therefore modelled from
the spec, covering exactly the behaviour the spec describes. -/

/-- A zero-filled fixed-size array. -/
def zeros (n : Nat) : CArr Int n := ⟨List.replicate n 0, List.length_replicate n 0⟩

/-- The element name of an atom, read from its `elname` buffer up to the
first NUL character, as in C. -/
def elnameStr (a : inchi_Atom) : String :=
  String.mk (a.elname.val.takeWhile (fun c => c ≠ '\x00'))

/-- Pack an element symbol into a NUL-padded `elname` buffer of length
`ATOM_EL_LEN`, truncating if it is too long, as a C `strncpy` would. -/
def toElname (s : String) : CArr Char ATOM_EL_LEN :=
  ⟨s.toList.take ATOM_EL_LEN ++
      List.replicate (ATOM_EL_LEN - (s.toList.take ATOM_EL_LEN).length) '\x00', by
    simp only [List.length_append, List.length_replicate, List.length_take]
    omega⟩

/-- Hydrogen-count suffix of a Hill formula: nothing for 0 hydrogens,
a bare H for 1, and a counted H otherwise. -/
def hSuffix (h : Nat) : String :=
  if h = 0 then "" else if h = 1 then "H" else "H" ++ toString h

/-- Modelled from the spec: the implementation of `GetINCHI` lives in the
external InChI native library and is not under src/; the header declares
only its prototype.  This model covers the behaviour the spec describes:
no structural data yields the end-of-input code, and a minimal
single-atom molecule yields success and its identifier string, built from
the element symbol and the non-isotopic implicit-hydrogen count
(slot 0 of `num_iso_H`). -/
def GetINCHI (inp : inchi_Input) : Int × inchi_Output :=
  if inp.num_atoms = 0 then
    (inchi_Ret_EOF, ⟨"", "", "", ""⟩)
  else
    match inp.atom with
    | [a] =>
        let h := (a.num_iso_H.val.headI).toNat
        let formula := elnameStr a ++ hSuffix h
        let hLayer := if h = 0 then "" else "/h1" ++ hSuffix h
        (inchi_Ret_OKAY, ⟨"InChI=1S/" ++ formula ++ hLayer, "", "", ""⟩)
    | _ => (inchi_Ret_ERROR, ⟨"", "", "", ""⟩)

/-- Numeric value of a decimal digit string, 0 on the empty string. -/
def digitsToNat (l : List Char) : Nat :=
  l.foldl (fun n c => 10 * n + (c.toNat - 48)) 0

/-- An empty structure output: no atoms, no stereo, cleared flags. -/
def emptyOutputStruct : inchi_OutputStruct :=
  { atom := [], stereo0D := [], num_atoms := 0, num_stereo0D := 0,
    szMessage := "", szLog := "",
    WarningFlags := ⟨[⟨[0, 0], rfl⟩, ⟨[0, 0], rfl⟩], rfl⟩ }

/-- An atom recovered from an identifier: the element symbol and the
non-isotopic implicit-hydrogen count, everything else cleared. -/
def recoveredAtom (el : String) (h : Nat) : inchi_Atom :=
  { elname := toElname el,
    x := 0, y := 0, z := 0,
    neighbor := zeros 20, bond_type := zeros 20, bond_stereo := zeros 20,
    num_bonds := 0,
    num_iso_H := ⟨[Int.ofNat h, 0, 0, 0], rfl⟩,
    isotopic_mass := 0, radical := 0, charge := 0 }

/-- Modelled from the spec: the implementation of `GetStructFromINCHI`
lives in the external InChI native library and is not under src/; the
header declares only its prototype.  This model covers the behaviour the
spec describes: a standard identifier of a minimal single-heavy-atom
molecule is parsed back into one atom; anything else is an error. -/
def GetStructFromINCHI (inp : inchi_InputINCHI) : Int × inchi_OutputStruct :=
  let cs := inp.szInChI.toList
  if cs.take 9 = ("InChI=1S/").toList then
    let body := cs.drop 9
    let formula := body.takeWhile (fun c => c ≠ '/')
    let el := String.mk (formula.takeWhile (fun c => c ≠ 'H'))
    let hs := formula.dropWhile (fun c => c ≠ 'H')
    let h : Nat :=
      match hs with
      | [] => 0
      | _ :: ds => if ds = [] then 1 else digitsToNat ds
    if el = "" then (inchi_Ret_ERROR, emptyOutputStruct)
    else
      (inchi_Ret_OKAY,
        { emptyOutputStruct with atom := [recoveredAtom el h], num_atoms := 1 })
  else (inchi_Ret_ERROR, emptyOutputStruct)

/-- The spec's minimal valid molecule: a single carbon atom with four
implicit (non-isotopic) hydrogens and no bonds. -/
def methaneAtom : inchi_Atom :=
  { elname := toElname ("C"),
    x := 0, y := 0, z := 0,
    neighbor := zeros 20, bond_type := zeros 20, bond_stereo := zeros 20,
    num_bonds := 0,
    num_iso_H := ⟨[4, 0, 0, 0], rfl⟩,
    isotopic_mass := 0, radical := 0, charge := 0 }

/-- The input record carrying the single methane carbon. -/
def methaneInput : inchi_Input :=
  { atom := [methaneAtom], stereo0D := [], szOptions := "",
    num_atoms := 1, num_stereo0D := 0 }

/-- A copy of `methaneAtom` whose parallel arrays differ beyond the first
`num_bonds` positions. -/
def methaneAtomVariant : inchi_Atom :=
  { methaneAtom with
    neighbor := ⟨List.replicate 20 7, List.length_replicate 20 7⟩,
    bond_type := ⟨List.replicate 20 1, List.length_replicate 20 1⟩,
    bond_stereo := ⟨List.replicate 20 1, List.length_replicate 20 1⟩ }

/-- Taking a prefix of a zip is zipping the prefixes. -/
theorem take_zip_eq {α β : Type} (n : Nat) (l1 : List α) (l2 : List β) :
    (l1.zip l2).take n = (l1.take n).zip (l2.take n) := by
  induction l1 generalizing n l2 with
  | nil => simp
  | cons a l ih =>
      cases l2 with
      | nil => simp
      | cons b l2 =>
          cases n with
          | zero => simp
          | succ n => simp [List.zip_cons_cons, List.take_succ_cons, ih]

/- ### Value lists for the stereo constant families -/

/-- The eight bond-stereo constants, in declaration order. -/
def bondStereoVals : List Int :=
  [ INCHI_BOND_STEREO_NONE, INCHI_BOND_STEREO_SINGLE_1UP,
    INCHI_BOND_STEREO_SINGLE_1DOWN, INCHI_BOND_STEREO_SINGLE_2UP,
    INCHI_BOND_STEREO_SINGLE_2DOWN, INCHI_BOND_STEREO_SINGLE_1EITHER,
    INCHI_BOND_STEREO_SINGLE_2EITHER, INCHI_BOND_STEREO_DOUBLE_EITHER ]

/-- The five stereo-parity constants, in declaration order. -/
def parityVals : List Int :=
  [ INCHI_PARITY_NONE, INCHI_PARITY_ODD, INCHI_PARITY_EVEN,
    INCHI_PARITY_UNKNOWN, INCHI_PARITY_UNDEFINED ]

/-- The four stereo-type constants, in declaration order. -/
def stereoTypeVals : List Int :=
  [ INCHI_StereoType_None, INCHI_StereoType_DoubleBond,
    INCHI_StereoType_Tetrahedral, INCHI_StereoType_Allene ]

/- ### Claim theorems -/

/-- Claim C1: in `inchi_Atom`, the element-name buffer has exactly
`ATOM_EL_LEN = 6` entries and the `neighbor`, `bond_type` and
`bond_stereo` arrays each have exactly 20 entries; the three arrays are
parallel and only their first `num_bonds` entries are meaningful: the
bond data `atomBonds` of an atom depends only on those entries. -/
theorem inchi_Atom_parallel_arrays_first_num_bonds :
    (fieldType inchi_Atom_fields .elname = some (.array .char ATOM_EL_LEN) ∧
      ATOM_EL_LEN = 6 ∧
      fieldType inchi_Atom_fields .neighbor = some (.array .at_num 20) ∧
      fieldType inchi_Atom_fields .bond_type = some (.array .at_num 20) ∧
      fieldType inchi_Atom_fields .bond_stereo = some (.array .s_char 20)) ∧
    ∀ a b : inchi_Atom, a.num_bonds = b.num_bonds →
      a.neighbor.val.take a.num_bonds.toNat =
        b.neighbor.val.take b.num_bonds.toNat →
      a.bond_type.val.take a.num_bonds.toNat =
        b.bond_type.val.take b.num_bonds.toNat →
      a.bond_stereo.val.take a.num_bonds.toNat =
        b.bond_stereo.val.take b.num_bonds.toNat →
      atomBonds a = atomBonds b := by
  refine ⟨by decide, ?_⟩
  intro a b hn h1 h2 h3
  unfold atomBonds
  simp only [take_zip_eq]
  rw [h1, h2, h3]

/-- Witness for C1: the methane atom and a variant whose parallel arrays
differ only beyond the first `num_bonds` positions have the same bond
data. -/
theorem inchi_Atom_parallel_arrays_first_num_bonds_witness :
    atomBonds methaneAtom = atomBonds methaneAtomVariant :=
  inchi_Atom_parallel_arrays_first_num_bonds.2 methaneAtom methaneAtomVariant
    rfl rfl rfl rfl

/-- Claim C2: the seven structure-conversion return codes are the
consecutive integers 0 through 6, in the order success, warning, error,
fatal, unknown, busy, end-of-input. -/
theorem inchi_Ret_codes_consecutive :
    inchi_Ret_OKAY = 0 ∧ inchi_Ret_WARNING = 1 ∧ inchi_Ret_ERROR = 2 ∧
    inchi_Ret_FATAL = 3 ∧ inchi_Ret_UNKNOWN = 4 ∧ inchi_Ret_BUSY = 5 ∧
    inchi_Ret_EOF = 6 := by
  decide

/-- Claim C3: the seven InChIKey-derivation return codes are the
consecutive integers 0 through 6, in the order success, unknown error,
empty input, invalid prefix, out of memory, invalid InChI, invalid
standard InChI. -/
theorem inchikey_codes_consecutive :
    INCHIKEY_OK = 0 ∧ INCHIKEY_UNKNOWN_ERROR = 1 ∧
    INCHIKEY_EMPTY_INPUT = 2 ∧ INCHIKEY_INVALID_INCHI_PREFIX = 3 ∧
    INCHIKEY_NOT_ENOUGH_MEMORY = 4 ∧ INCHIKEY_INVALID_INCHI = 5 ∧
    INCHIKEY_INVALID_STD_INCHI = 6 := by
  decide

/-- Claim C4: the eight bond-stereo constants take exactly the values
{0,...,7}, the five parity constants exactly {0,...,4}, and the four
stereo-type constants exactly {0,...,3}, with no duplicates within any
family. -/
theorem stereo_constant_families_values :
    bondStereoVals.Nodup ∧
    bondStereoVals.toFinset = ({0, 1, 2, 3, 4, 5, 6, 7} : Finset Int) ∧
    parityVals.Nodup ∧
    parityVals.toFinset = ({0, 1, 2, 3, 4} : Finset Int) ∧
    stereoTypeVals.Nodup ∧
    stereoTypeVals.toFinset = ({0, 1, 2, 3} : Finset Int) := by
  decide

/-- Claim C5: the five bond-type constants take exactly the values 0
through 4, in the order none, single, double, triple, alternating
(aromatic). -/
theorem bond_type_constants_values :
    INCHI_BOND_TYPE_NONE = 0 ∧ INCHI_BOND_TYPE_SINGLE = 1 ∧
    INCHI_BOND_TYPE_DOUBLE = 2 ∧ INCHI_BOND_TYPE_TRIPLE = 3 ∧
    INCHI_BOND_TYPE_ALTERN = 4 := by
  decide

/-- Claim C6: `inchi_Stereo0D` consists of exactly a four-entry neighbor
array, a central-atom index, a stereo-type tag and a parity tag, in that
order, and no other fields. -/
theorem inchi_Stereo0D_exact_fields :
    inchi_Stereo0D_fields.map Prod.fst =
      [.neighbor, .central_atom, .type, .parity] ∧
    inchi_Stereo0D_fields.length = 4 ∧
    fieldType inchi_Stereo0D_fields .neighbor = some (.array .at_num 4) ∧
    fieldType inchi_Stereo0D_fields .central_atom = some .at_num ∧
    fieldType inchi_Stereo0D_fields .type = some .s_char ∧
    fieldType inchi_Stereo0D_fields .parity = some .s_char := by
  decide

/-- Claim C7: for the minimal valid molecule (one carbon atom with four
implicit hydrogens), `GetINCHI` returns success and a non-empty
identifier, and feeding that identifier to `GetStructFromINCHI` returns
success with exactly one atom recovered. -/
theorem methane_roundtrip :
    (GetINCHI methaneInput).1 = inchi_Ret_OKAY ∧
    (GetINCHI methaneInput).2.szInChI ≠ "" ∧
    (GetStructFromINCHI ⟨(GetINCHI methaneInput).2.szInChI, ""⟩).1 =
      inchi_Ret_OKAY ∧
    (GetStructFromINCHI ⟨(GetINCHI methaneInput).2.szInChI, ""⟩).2.num_atoms = 1 ∧
    (GetStructFromINCHI ⟨(GetINCHI methaneInput).2.szInChI, ""⟩).2.atom.length = 1 := by
  refine ⟨rfl, by decide, rfl, rfl, rfl⟩

/-- Claim C8: in `inchi_Atom`, the implicit-hydrogen count array
`num_iso_H` has `NUM_H_ISOTOPES + 1 = 4` entries, one more than the
declared hydrogen-isotope count `NUM_H_ISOTOPES = 3`. -/
theorem num_iso_H_length :
    fieldType inchi_Atom_fields .num_iso_H =
      some (.array .s_char (NUM_H_ISOTOPES + 1)) ∧
    NUM_H_ISOTOPES = 3 ∧ NUM_H_ISOTOPES + 1 = 4 := by
  decide

/-- Claim C9: `GetINCHIKeyFromINCHI` takes the constant source string and
two constant integer flags, and writes into three caller-supplied output
buffers; the first three parameters are const-qualified (read-only) and
exactly the last three are writable character buffers. -/
theorem GetINCHIKeyFromINCHI_signature :
    GetINCHIKeyFromINCHI_decl.params.map CParam.pname =
      [.szINCHISource, .xtra1, .xtra2, .szINCHIKey, .szXtra1, .szXtra2] ∧
    GetINCHIKeyFromINCHI_decl.params.map (fun p => readOnlyParam p.ptype) =
      [true, true, true, false, false, false] ∧
    GetINCHIKeyFromINCHI_decl.params.map (fun p => writableCharBuf p.ptype) =
      [false, false, false, true, true, true] ∧
    (GetINCHIKeyFromINCHI_decl.params.filter
        (fun p => writableCharBuf p.ptype)).length = 3 := by
  decide

/-- Claim C10: `inchi_OutputStruct` contains the atom and stereo arrays,
their two counts, the message and log strings, and a 2-by-2 array of
unsigned long warning flags as its last field. -/
theorem inchi_OutputStruct_fields_layout :
    inchi_OutputStruct_fields.map Prod.fst =
      [.atom, .stereo0D, .num_atoms, .num_stereo0D,
        .szMessage, .szLog, .WarningFlags] ∧
    inchi_OutputStruct_fields.getLast? =
      some (.WarningFlags, .array (.array .uLong 2) 2) := by
  decide
